import Mathlib

/-!
Verification of the contact-form request pipeline in `src/app.js`
(`app.post("/contact-us")` together with the `validateForm` middleware).

The JavaScript is embedded shallowly:

* the request body is a structure of strings / optional strings;
* the `express-validator` chain `trim().escape()` / `normalizeEmail()` is
  modelled by `sanitizeBody` (the library writes the sanitized values back
  into `req.body`, so the handler only ever sees the sanitized body);
* `validator.js`'s `escape` (sequential global replacement of
  `&`, `"`, a quote, `<`, `>`, a slash, a backslash and a backtick by their
  HTML entities) is `escapeStr`;
* the external world for one request (the two duplicated verify fetches,
  the JSON parse of the verify response, `transporter.sendMail`, and the
  Mailchimp call) is a record `ExtWorld` of `Except` values;
* the handler is the function `contactUsPost`, returning the terminal
  `Outcome` (status plus rendered view-model, a JSON error, or an escaped
  exception) together with a `Trace` recording which outbound calls were
  made;
* the concurrency question (the undeclared global `data` on line 121 of
  `app.js`) is treated by an interleaving semantics `runSys` of two request
  state machines sharing that one global.

`isEmail` (the syntactic e-mail validity test of `validator.js`) and
`normalizeEmail` are parameters of the model throughout: no claim depends
on their internals, only on where the handler calls them.
-/

/-- The fields of a `POST /contact-us` body (`req.body`).  Optional form
fields (`phone`, `newsletter`, `service`, `referral`, and the
`g-recaptcha-response` token) are `Option String`: `none` means the field
is absent from the urlencoded body. -/
structure Body where
  first_name : String
  last_name : String
  email : String
  phone : Option String
  newsletter : Option String
  service : Option String
  referral : Option String
  message : String
  token : Option String
  deriving DecidableEq, Repr

/-- The parsed JSON of the reCAPTCHA verify response:
`{success, score, action}`.  The score is a rational number (the JS value
is an IEEE double such as `0.3`; every comparison in the handler is
against `0.5`, which both systems represent exactly, so `ℚ` is a faithful
carrier for the comparison semantics). -/
structure VerifyData where
  success : Bool
  score : ℚ
  action : String
  deriving DecidableEq, Repr

instance {ε α : Type} [DecidableEq ε] [DecidableEq α] :
    DecidableEq (Except ε α)
  | .error a, .error b =>
    if h : a = b then .isTrue (by rw [h]) else .isFalse (by simp [h])
  | .error _, .ok _ => .isFalse (by simp)
  | .ok _, .error _ => .isFalse (by simp)
  | .ok a, .ok b =>
    if h : a = b then .isTrue (by rw [h]) else .isFalse (by simp [h])

/-- JavaScript's notion of whitespace, as used by `String.prototype.trim`
and `validator.js`'s default trim characters: ASCII whitespace, NBSP, the
Unicode space separators, line/paragraph separators and the BOM. -/
def isJsSpace (c : Char) : Bool :=
  c.toNat = 9 || c.toNat = 10 || c.toNat = 11 || c.toNat = 12 ||
  c.toNat = 13 || c.toNat = 32 || c.toNat = 160 || c.toNat = 5760 ||
  (8192 ≤ c.toNat && c.toNat ≤ 8202) || c.toNat = 8232 ||
  c.toNat = 8233 || c.toNat = 8239 || c.toNat = 8287 ||
  c.toNat = 12288 || c.toNat = 65279

/-- The `.trim()` sanitizer: strip leading and trailing whitespace. -/
def jsTrim (s : String) : String :=
  ⟨((s.data.dropWhile isJsSpace).reverse.dropWhile isJsSpace).reverse⟩

/-- One character of `validator.js`'s `escape`: the eight
markup-significant characters are replaced by their HTML entities, all
other characters are kept.  (`escape` performs eight sequential global
`String.replace` passes; since no entity string contains a character that
a later pass replaces, this is the same as one character-wise map.) -/
def escapeChar (c : Char) : List Char :=
  if c = '&' then "&amp;".data
  else if c.toNat = 34 then "&quot;".data
  else if c.toNat = 39 then "&#x27;".data
  else if c = '<' then "&lt;".data
  else if c = '>' then "&gt;".data
  else if c = '/' then "&#x2F;".data
  else if c.toNat = 92 then "&#x5C;".data
  else if c.toNat = 96 then "&#96;".data
  else [c]

/-- The `escape` function of `validator.js`, as applied by the
`.escape()` sanitizer. -/
def escapeStr (s : String) : String :=
  ⟨s.data.flatMap escapeChar⟩

/-- The sanitization performed by the `validateForm` middleware chains.
`express-validator` sanitizers persist their result into `req.body`, so
after the middleware the handler sees this body, not the raw one:
`first_name`, `last_name`, `message` are trimmed and HTML-escaped, `email`
is trimmed and normalized. -/
def sanitizeBody (normalizeEmail : String → String) (b : Body) : Body :=
  { b with
    first_name := escapeStr (jsTrim b.first_name)
    last_name := escapeStr (jsTrim b.last_name)
    email := normalizeEmail (jsTrim b.email)
    message := escapeStr (jsTrim b.message) }

/-- The result of `errors.mapped()` for the `validateForm` rules, on the
sanitized body: for each field, the first failing rule's message, in the
declaration order of the chains (`notEmpty` before `isLength`, and fields
in the order first_name, last_name, email, message). -/
def validationErrors (isEmail : String → Bool) (sb : Body) :
    List (String × String) :=
  (if sb.first_name = "" then [("first_name", "First name is required")]
   else if sb.first_name.length < 3 then
     [("first_name", "First name must be at least 3 characters long")]
   else [])
  ++ (if sb.last_name = "" then [("last_name", "Last name is required")]
      else if sb.last_name.length < 2 then
        [("last_name", "Last name must be at least 2 characters long")]
      else [])
  ++ (if isEmail sb.email then [] else [("email", "Email is not valid")])
  ++ (if sb.message = "" then [("message", "Message is required")] else [])

/-- JavaScript truthiness of an optional string field (`if (!token)`,
`if (newsletter)`): absent and the empty string are falsy. -/
def truthy : Option String → Bool
  | none => false
  | some s => !(s = "")

/-- The gate `!data.success || data.score < 0.5 || data.action !== "submit"`. -/
def captchaRejected (d : VerifyData) : Bool :=
  !d.success || decide (d.score < mkRat 1 2) || !(d.action = "submit")

/-- Immutable configuration read from `process.env`. -/
structure Config where
  siteKey : String
  deriving DecidableEq, Repr

/-- Terminal outcome of one request: a `res.status(s).render("contact", …)`
with its view-model, the `res.status(500).json(…)` of the mail-failure
path, or an exception escaping the handler (a promise rejection Express
never turns into a response). -/
inductive Outcome where
  | render (status : Nat) (errors : List (String × String))
      (formData : Option Body) (successMessage : Option String)
      (siteKey : String)
  | jsonError (status : Nat) (msg : String)
  | crash
  deriving DecidableEq, Repr

/-- The outside world, from one request's point of view: the result of
each outbound operation the handler may await.  `f1` is the first
(unguarded) verify fetch on line 108, `f2` the duplicated one inside the
`try` on line 115, `jsonP` the `response.json()` parse, `mail` the
`transporter.sendMail`, `chimp` the whole guarded Mailchimp interaction
(`.ok b` = fetch and parse completed with `response.ok = b`, `.error` =
the fetch or the parse threw). -/
structure ExtWorld where
  f1 : Except Unit Unit
  f2 : Except Unit Unit
  jsonP : Except Unit VerifyData
  mail : Except Unit Unit
  chimp : Except Unit Bool
  deriving DecidableEq, Repr

/-- Which outbound calls a run of the handler performed. -/
structure Trace where
  verifyCalls : Nat
  mailAttempted : Bool
  chimpAttempted : Bool
  deriving DecidableEq, Repr

/-- The `app.post("/contact-us")` handler of `src/app.js`, lines 66–233,
run sequentially against an external world `ext`, instrumented with the
calls it makes.  It follows the source line by line: validation 400,
missing-token 400, the unguarded verify fetch (whose rejection escapes the
handler), the second verify fetch and JSON parse inside `try` (500 render
on failure), the `success`/`score`/`action` gate (403), `sendMail`
(500 JSON on failure), the swallowed Mailchimp call when `newsletter` is
truthy, and the final 200 render with cleared form. -/
def contactUsPost (cfg : Config) (isEmail : String → Bool)
    (normalizeEmail : String → String) (ext : ExtWorld) (b : Body) :
    Outcome × Trace :=
  let sb := sanitizeBody normalizeEmail b
  let errs := validationErrors isEmail sb
  if errs ≠ [] then
    (.render 400 errs (some sb) none cfg.siteKey,
     ⟨0, false, false⟩)
  else if !truthy sb.token then
    (.render 400 [("captcha", "Missing reCAPTCHA token. Please try again.")]
       (some sb) none cfg.siteKey,
     ⟨0, false, false⟩)
  else
    match ext.f1 with
    | .error _ => (.crash, ⟨1, false, false⟩)
    | .ok _ =>
      match ext.f2 with
      | .error _ =>
        (.render 500
           [("captcha", "Error verifying reCAPTCHA. Please try again.")]
           (some sb) none cfg.siteKey,
         ⟨2, false, false⟩)
      | .ok _ =>
        match ext.jsonP with
        | .error _ =>
          (.render 500
             [("captcha", "Error verifying reCAPTCHA. Please try again.")]
             (some sb) none cfg.siteKey,
           ⟨2, false, false⟩)
        | .ok d =>
          if captchaRejected d then
            (.render 403 [("captcha", "reCAPTCHA failed. Please try again.")]
               (some sb) none cfg.siteKey,
             ⟨2, false, false⟩)
          else
            match ext.mail with
            | .error _ =>
              (.jsonError 500 "Failed to send email", ⟨2, true, false⟩)
            | .ok _ =>
              if truthy sb.newsletter then
                (.render 200 [] none (some "Form submitted successfully!")
                   cfg.siteKey,
                 ⟨2, true, true⟩)
              else
                (.render 200 [] none (some "Form submitted successfully!")
                   cfg.siteKey,
                 ⟨2, true, false⟩)

/-- A fixed well-formed body used for concrete evaluations. -/
def goodBody : Body :=
  { first_name := "Alice"
    last_name := "Smith"
    email := "alice@example.com"
    phone := none
    newsletter := none
    service := none
    referral := none
    message := "Hello there"
    token := some "tok123" }

/-- A permissive concrete e-mail test used to instantiate the `isEmail`
parameter in witnesses. -/
def anyEmail : String → Bool := fun _ => true

/-- A concrete configuration for witnesses. -/
def cfg0 : Config := ⟨"site-key"⟩

/-- An external world where every call succeeds and the verifier returns
`{success:true, score:0.9, action:"submit"}`. -/
def extAllOk : ExtWorld :=
  { f1 := .ok ()
    f2 := .ok ()
    jsonP := .ok ⟨true, mkRat 9 10, "submit"⟩
    mail := .ok ()
    chimp := .ok true }

/-- A body whose message contains markup and surrounding whitespace and
whose first name is too short: the 400 echo differs from the raw input. -/
def markupBody : Body := { goodBody with first_name := "Al", message := " <b>hi " }

/-- A body whose raw first name is the single character `&` (length 1):
after the `.escape()` sanitizer it becomes `&amp;` (length 5) and passes
the min-3 length rule. -/
def ampBody : Body := { goodBody with first_name := "&" }

/-- A body whose first name is two plain letters, failing the min-3
length rule also after sanitization. -/
def joBody : Body := { goodBody with first_name := "Jo" }

/-- Everything that is fixed about one in-flight request: its body and
the responses the outside world will give to its outbound calls. -/
structure RCtx where
  body : Body
  ext : ExtWorld
  deriving DecidableEq, Repr

/-- The suspension points of the async handler: one phase per `await`
boundary, plus the terminal phase.  Between two awaits the JavaScript
event loop runs the handler's continuation synchronously to completion,
so another request can only interleave at these phase boundaries. -/
inductive RPhase where
  | start
  | awaitF1
  | awaitF2
  | awaitJson
  | awaitMail
  | awaitChimp
  | done (o : Outcome)
  deriving DecidableEq, Repr

/-- One atomic continuation of the handler for request `c`: from phase
`p`, with the shared undeclared global `data` (line 121 of `app.js` has
no `const`/`let`, so in sloppy-mode CommonJS it is one process-wide
variable) currently holding `g`, run to the next `await` or to
termination.  The only access to the global is in the `awaitJson`
continuation, which assigns `data = await response.json()` and then,
still inside the same synchronous continuation, reads `data` back in the
`if (!data.success || data.score < 0.5 || data.action !== "submit")`
gate. -/
def stepReq (cfg : Config) (isEmail : String → Bool)
    (normalizeEmail : String → String) (c : RCtx) :
    RPhase → Option VerifyData → RPhase × Option VerifyData
  | .start, g =>
    let sb := sanitizeBody normalizeEmail c.body
    let errs := validationErrors isEmail sb
    if errs ≠ [] then
      (.done (.render 400 errs (some sb) none cfg.siteKey), g)
    else if !truthy sb.token then
      (.done (.render 400
         [("captcha", "Missing reCAPTCHA token. Please try again.")]
         (some sb) none cfg.siteKey), g)
    else (.awaitF1, g)
  | .awaitF1, g =>
    match c.ext.f1 with
    | .error _ => (.done .crash, g)
    | .ok _ => (.awaitF2, g)
  | .awaitF2, g =>
    match c.ext.f2 with
    | .error _ =>
      (.done (.render 500
         [("captcha", "Error verifying reCAPTCHA. Please try again.")]
         (some (sanitizeBody normalizeEmail c.body)) none cfg.siteKey), g)
    | .ok _ => (.awaitJson, g)
  | .awaitJson, _g =>
    match c.ext.jsonP with
    | .error _ =>
      (.done (.render 500
         [("captcha", "Error verifying reCAPTCHA. Please try again.")]
         (some (sanitizeBody normalizeEmail c.body)) none cfg.siteKey), _g)
    | .ok v =>
      let g1 : Option VerifyData := some v
      match g1 with
      | none => (.done .crash, g1)
      | some d =>
        if captchaRejected d then
          (.done (.render 403
             [("captcha", "reCAPTCHA failed. Please try again.")]
             (some (sanitizeBody normalizeEmail c.body)) none cfg.siteKey),
           g1)
        else (.awaitMail, g1)
  | .awaitMail, g =>
    match c.ext.mail with
    | .error _ => (.done (.jsonError 500 "Failed to send email"), g)
    | .ok _ =>
      if truthy (sanitizeBody normalizeEmail c.body).newsletter then
        (.awaitChimp, g)
      else
        (.done (.render 200 [] none (some "Form submitted successfully!")
           cfg.siteKey), g)
  | .awaitChimp, g =>
    (.done (.render 200 [] none (some "Form submitted successfully!")
       cfg.siteKey), g)
  | .done o, g => (.done o, g)

/-- Two concurrent requests interleaved by a schedule: `true` runs the
next pending continuation of request A, `false` of request B; both share
the single global `data` slot. -/
def runSys (cfg : Config) (isEmail : String → Bool)
    (normalizeEmail : String → String) (cA cB : RCtx) :
    List Bool → RPhase × RPhase × Option VerifyData →
      RPhase × RPhase × Option VerifyData
  | [], s => s
  | true :: rest, (pA, pB, g) =>
    let r := stepReq cfg isEmail normalizeEmail cA pA g
    runSys cfg isEmail normalizeEmail cA cB rest (r.1, pB, r.2)
  | false :: rest, (pA, pB, g) =>
    let r := stepReq cfg isEmail normalizeEmail cB pB g
    runSys cfg isEmail normalizeEmail cA cB rest (pA, r.1, r.2)

/-- The outcome the handler produces for request `c` run in isolation:
the first component of the sequential embedding `contactUsPost`. -/
def seqOutcome (cfg : Config) (isEmail : String → Bool)
    (normalizeEmail : String → String) (c : RCtx) : Outcome :=
  (contactUsPost cfg isEmail normalizeEmail c.ext c.body).1

/-- The outcome request `c` is bound to produce once it is suspended at
the `sendMail` await. -/
def outcomeFromMail (cfg : Config) (c : RCtx) : Outcome :=
  match c.ext.mail with
  | .error _ => .jsonError 500 "Failed to send email"
  | .ok _ =>
    .render 200 [] none (some "Form submitted successfully!") cfg.siteKey

/-- The outcome request `c` is bound to produce once it is suspended at
the `response.json()` await. -/
def outcomeFromJson (cfg : Config) (normalizeEmail : String → String)
    (c : RCtx) : Outcome :=
  match c.ext.jsonP with
  | .error _ =>
    .render 500 [("captcha", "Error verifying reCAPTCHA. Please try again.")]
      (some (sanitizeBody normalizeEmail c.body)) none cfg.siteKey
  | .ok d =>
    if captchaRejected d then
      .render 403 [("captcha", "reCAPTCHA failed. Please try again.")]
        (some (sanitizeBody normalizeEmail c.body)) none cfg.siteKey
    else outcomeFromMail cfg c

/-- The outcome request `c` is bound to produce once it is suspended at
the second (guarded) verify fetch. -/
def outcomeFromF2 (cfg : Config) (normalizeEmail : String → String)
    (c : RCtx) : Outcome :=
  match c.ext.f2 with
  | .error _ =>
    .render 500 [("captcha", "Error verifying reCAPTCHA. Please try again.")]
      (some (sanitizeBody normalizeEmail c.body)) none cfg.siteKey
  | .ok _ => outcomeFromJson cfg normalizeEmail c

/-- The outcome request `c` is bound to produce once it is suspended at
the first (unguarded) verify fetch. -/
def outcomeFromF1 (cfg : Config) (normalizeEmail : String → String)
    (c : RCtx) : Outcome :=
  match c.ext.f1 with
  | .error _ => .crash
  | .ok _ => outcomeFromF2 cfg normalizeEmail c

/-- The outcome request `c` is bound to produce from each phase.  This is
well defined exactly because no phase's continuation reads state written
by the other request: it is the invariant of the noninterference proof. -/
def phaseOutcome (cfg : Config) (isEmail : String → Bool)
    (normalizeEmail : String → String) (c : RCtx) : RPhase → Outcome
  | .start => seqOutcome cfg isEmail normalizeEmail c
  | .awaitF1 => outcomeFromF1 cfg normalizeEmail c
  | .awaitF2 => outcomeFromF2 cfg normalizeEmail c
  | .awaitJson => outcomeFromJson cfg normalizeEmail c
  | .awaitMail => outcomeFromMail cfg c
  | .awaitChimp =>
    .render 200 [] none (some "Form submitted successfully!") cfg.siteKey
  | .done o => o

/-- A schedule interleaving the five continuations of request A with the
six of request B; in particular B's `data` assignment happens after A's. -/
def schedAB : List Bool :=
  [true, false, true, false, true, false, true, false, true, false, false]

/-- Concrete request A: all-green, no newsletter. -/
def ctxA : RCtx := ⟨goodBody, extAllOk⟩

/-- Concrete request B: newsletter opted in, verifier scores it 0.3. -/
def ctxB : RCtx :=
  ⟨{ goodBody with newsletter := some "on" },
   { extAllOk with jsonP := .ok ⟨true, mkRat 3 10, "submit"⟩ }⟩

/-- Sanitization does not touch the token field. -/
@[simp] theorem sanitizeBody_token (nE : String → String) (b : Body) :
    (sanitizeBody nE b).token = b.token := rfl

/-- Sanitization does not touch the newsletter field. -/
@[simp] theorem sanitizeBody_newsletter (nE : String → String) (b : Body) :
    (sanitizeBody nE b).newsletter = b.newsletter := rfl

/-- Sanity: the all-green path renders the 200 success view with the form
cleared and exactly the mail call (plus the duplicated verify fetches). -/
theorem sanity_success_path :
    contactUsPost cfg0 anyEmail id extAllOk goodBody =
      (.render 200 [] none (some "Form submitted successfully!") "site-key",
       ⟨2, true, false⟩) := by decide

/-- C4: a submission that passes field validation but has no
`g-recaptcha-response` field is answered with status 400, error key
`captcha` and message "Missing reCAPTCHA token. Please try again.", and no
outbound call of any kind (verify, mail, list) is made. -/
theorem missing_token_rejected_before_any_network_call
    (cfg : Config) (isEmail : String → Bool)
    (normalizeEmail : String → String) (ext : ExtWorld) (b : Body)
    (hval : validationErrors isEmail (sanitizeBody normalizeEmail b) = [])
    (htok : b.token = none) :
    contactUsPost cfg isEmail normalizeEmail ext b =
      (.render 400
         [("captcha", "Missing reCAPTCHA token. Please try again.")]
         (some (sanitizeBody normalizeEmail b)) none cfg.siteKey,
       ⟨0, false, false⟩) := by
  simp [contactUsPost, hval, htok, truthy]

/-- Witness for C4 at a concrete input. -/
theorem missing_token_rejected_witness :
    validationErrors anyEmail (sanitizeBody id { goodBody with token := none })
        = [] ∧
    ({ goodBody with token := none } : Body).token = none ∧
    contactUsPost cfg0 anyEmail id extAllOk { goodBody with token := none } =
      (.render 400
         [("captcha", "Missing reCAPTCHA token. Please try again.")]
         (some (sanitizeBody id { goodBody with token := none })) none
         "site-key",
       ⟨0, false, false⟩) :=
  ⟨by decide, rfl,
   missing_token_rejected_before_any_network_call cfg0 anyEmail id extAllOk
     { goodBody with token := none } (by decide) rfl⟩

/-- C10: a `g-recaptcha-response` field that is present but equal to the
empty string is falsy in `if (!token)`, so it is handled exactly like an
absent token: 400 missing-token response, no verification call. -/
theorem empty_token_treated_as_missing
    (cfg : Config) (isEmail : String → Bool)
    (normalizeEmail : String → String) (ext : ExtWorld) (b : Body)
    (hval : validationErrors isEmail (sanitizeBody normalizeEmail b) = [])
    (htok : b.token = some "") :
    contactUsPost cfg isEmail normalizeEmail ext b =
      (.render 400
         [("captcha", "Missing reCAPTCHA token. Please try again.")]
         (some (sanitizeBody normalizeEmail b)) none cfg.siteKey,
       ⟨0, false, false⟩) := by
  simp [contactUsPost, hval, htok, truthy]

/-- Witness for C10 at a concrete input. -/
theorem empty_token_treated_as_missing_witness :
    validationErrors anyEmail
        (sanitizeBody id { goodBody with token := some "" }) = [] ∧
    ({ goodBody with token := some "" } : Body).token = some "" ∧
    contactUsPost cfg0 anyEmail id extAllOk { goodBody with token := some "" }
      = (.render 400
           [("captcha", "Missing reCAPTCHA token. Please try again.")]
           (some (sanitizeBody id { goodBody with token := some "" })) none
           "site-key",
         ⟨0, false, false⟩) :=
  ⟨by decide, rfl,
   empty_token_treated_as_missing cfg0 anyEmail id extAllOk
     { goodBody with token := some "" } (by decide) rfl⟩

/-- C5: when the parsed verifier response fails the gate (`success` false,
or `score < 0.5`, or `action ≠ "submit"`), the handler renders 403 with
the captcha-rejection message and `sendMail` is never invoked. -/
theorem captcha_rejection_403_no_email
    (cfg : Config) (isEmail : String → Bool)
    (normalizeEmail : String → String) (ext : ExtWorld) (b : Body)
    (d : VerifyData)
    (hval : validationErrors isEmail (sanitizeBody normalizeEmail b) = [])
    (htok : truthy b.token = true)
    (hf1 : ext.f1 = .ok ()) (hf2 : ext.f2 = .ok ())
    (hj : ext.jsonP = .ok d)
    (hrej : d.success = false ∨ d.score < mkRat 1 2 ∨ d.action ≠ "submit") :
    contactUsPost cfg isEmail normalizeEmail ext b =
      (.render 403 [("captcha", "reCAPTCHA failed. Please try again.")]
         (some (sanitizeBody normalizeEmail b)) none cfg.siteKey,
       ⟨2, false, false⟩) := by
  have hc : captchaRejected d = true := by
    rcases hrej with h | h | h <;> simp [captchaRejected, h]
  simp [contactUsPost, hval, htok, hf1, hf2, hj, hc]

/-- Witness for C5: verifier score 0.3 on otherwise valid input. -/
theorem captcha_rejection_403_no_email_witness :
    validationErrors anyEmail (sanitizeBody id goodBody) = [] ∧
    truthy goodBody.token = true ∧
    ((⟨true, mkRat 3 10, "submit"⟩ : VerifyData).score < mkRat 1 2) ∧
    contactUsPost cfg0 anyEmail id
        { extAllOk with jsonP := .ok ⟨true, mkRat 3 10, "submit"⟩ } goodBody
      = (.render 403 [("captcha", "reCAPTCHA failed. Please try again.")]
           (some (sanitizeBody id goodBody)) none "site-key",
         ⟨2, false, false⟩) :=
  ⟨by decide, by decide, by decide,
   captcha_rejection_403_no_email cfg0 anyEmail id
     { extAllOk with jsonP := .ok ⟨true, mkRat 3 10, "submit"⟩ } goodBody
     ⟨true, mkRat 3 10, "submit"⟩ (by decide) (by decide) rfl rfl rfl
     (Or.inr (Or.inl (by decide)))⟩

/-- C7: on the success path with newsletter opted in, a failing Mailchimp
interaction (thrown fetch / parse, or a non-ok API response) is swallowed:
the outcome is still the 200 render with `successMessage` set and the form
cleared. -/
theorem mailchimp_failure_still_success
    (cfg : Config) (isEmail : String → Bool)
    (normalizeEmail : String → String) (ext : ExtWorld) (b : Body)
    (d : VerifyData)
    (hval : validationErrors isEmail (sanitizeBody normalizeEmail b) = [])
    (htok : truthy b.token = true)
    (hf1 : ext.f1 = .ok ()) (hf2 : ext.f2 = .ok ())
    (hj : ext.jsonP = .ok d)
    (hacc : captchaRejected d = false)
    (hmail : ext.mail = .ok ())
    (hnews : truthy b.newsletter = true)
    (_hchimp : ext.chimp = .error () ∨ ext.chimp = .ok false) :
    contactUsPost cfg isEmail normalizeEmail ext b =
      (.render 200 [] none (some "Form submitted successfully!") cfg.siteKey,
       ⟨2, true, true⟩) := by
  simp [contactUsPost, hval, htok, hf1, hf2, hj, hacc, hmail,
    hnews]

/-- Witness for C7: Mailchimp returns a non-ok response, outcome still
the 200 success render. -/
theorem mailchimp_failure_still_success_witness :
    validationErrors anyEmail
        (sanitizeBody id { goodBody with newsletter := some "on" }) = [] ∧
    contactUsPost cfg0 anyEmail id { extAllOk with chimp := .ok false }
        { goodBody with newsletter := some "on" }
      = (.render 200 [] none (some "Form submitted successfully!")
           "site-key",
         ⟨2, true, true⟩) :=
  ⟨by decide,
   mailchimp_failure_still_success cfg0 anyEmail id
     { extAllOk with chimp := .ok false }
     { goodBody with newsletter := some "on" }
     ⟨true, mkRat 9 10, "submit"⟩ (by decide) (by decide) rfl rfl rfl
     (by decide) rfl (by decide) (Or.inr rfl)⟩

/-- C8: when `transporter.sendMail` throws, the handler answers
`res.status(500).json({error: "Failed to send email"})` — no rendered
view, hence no success message — and the Mailchimp step is never reached. -/
theorem mail_failure_500_stops_pipeline
    (cfg : Config) (isEmail : String → Bool)
    (normalizeEmail : String → String) (ext : ExtWorld) (b : Body)
    (d : VerifyData)
    (hval : validationErrors isEmail (sanitizeBody normalizeEmail b) = [])
    (htok : truthy b.token = true)
    (hf1 : ext.f1 = .ok ()) (hf2 : ext.f2 = .ok ())
    (hj : ext.jsonP = .ok d)
    (hacc : captchaRejected d = false)
    (hmail : ext.mail = .error ()) :
    contactUsPost cfg isEmail normalizeEmail ext b =
      (.jsonError 500 "Failed to send email", ⟨2, true, false⟩) := by
  simp [contactUsPost, hval, htok, hf1, hf2, hj, hacc, hmail]

/-- Witness for C8: mail relay throws on an otherwise all-green request
that even opted into the newsletter — still no Mailchimp attempt. -/
theorem mail_failure_500_stops_pipeline_witness :
    contactUsPost cfg0 anyEmail id { extAllOk with mail := .error () }
        { goodBody with newsletter := some "on" }
      = (.jsonError 500 "Failed to send email", ⟨2, true, false⟩) :=
  mail_failure_500_stops_pipeline cfg0 anyEmail id
    { extAllOk with mail := .error () }
    { goodBody with newsletter := some "on" }
    ⟨true, mkRat 9 10, "submit"⟩ (by decide) (by decide) rfl rfl rfl
    (by decide) rfl

/-- C6 refuted as stated: on this concrete failing submission the 400
response's `formData` is the sanitized body (message trimmed and
HTML-escaped), which differs from the raw submitted input — `req.body` has
been mutated by the express-validator sanitizers before it is echoed. -/
theorem validation_echo_not_original :
    (contactUsPost cfg0 anyEmail id extAllOk markupBody).1 =
      .render 400
        [("first_name", "First name must be at least 3 characters long")]
        (some (sanitizeBody id markupBody)) none "site-key" ∧
    sanitizeBody id markupBody ≠ markupBody := by decide

/-- C6 as amended: whenever validation fails, the handler returns 400
rendering the contact view with the mapped errors and `formData` equal to
the submitted input *after* sanitization (trimmed, HTML-escaped,
email-normalized), before any outbound call. -/
theorem validation_failure_echoes_sanitized_body
    (cfg : Config) (isEmail : String → Bool)
    (normalizeEmail : String → String) (ext : ExtWorld) (b : Body)
    (hval : validationErrors isEmail (sanitizeBody normalizeEmail b) ≠ []) :
    contactUsPost cfg isEmail normalizeEmail ext b =
      (.render 400 (validationErrors isEmail (sanitizeBody normalizeEmail b))
         (some (sanitizeBody normalizeEmail b)) none cfg.siteKey,
       ⟨0, false, false⟩) := by
  simp [contactUsPost, hval]

/-- Witness for the amended C6 at a concrete input. -/
theorem validation_failure_echoes_sanitized_body_witness :
    validationErrors anyEmail (sanitizeBody id markupBody) ≠ [] ∧
    contactUsPost cfg0 anyEmail id extAllOk markupBody =
      (.render 400 (validationErrors anyEmail (sanitizeBody id markupBody))
         (some (sanitizeBody id markupBody)) none "site-key",
       ⟨0, false, false⟩) :=
  ⟨by decide,
   validation_failure_echoes_sanitized_body cfg0 anyEmail id extAllOk
     markupBody (by decide)⟩

/-- C9 refuted as stated: the raw first name `&` has length 1 < 3, yet
the submission is not rejected at all — the length rule runs after
`.escape()`, which turns `&` into `&amp;` (length 5), so with every other
field valid the handler proceeds to the 200 success render. -/
theorem short_raw_first_name_not_rejected :
    ("&" : String).length < 3 ∧
    (contactUsPost cfg0 anyEmail id extAllOk ampBody).1 =
      .render 200 [] none (some "Form submitted successfully!") "site-key"
    := by decide

/-- C9 as amended: whenever the first name *after trimming and
HTML-escaping* has length < 3, the handler returns a 400 render whose
mapped errors contain key `first_name` with message "First name must be
at least 3 characters long" (or "First name is required" when it is
empty), regardless of every other field. -/
theorem short_first_name_always_rejected
    (cfg : Config) (isEmail : String → Bool)
    (normalizeEmail : String → String) (ext : ExtWorld) (b : Body)
    (h : (escapeStr (jsTrim b.first_name)).length < 3) :
    (contactUsPost cfg isEmail normalizeEmail ext b).1 =
      .render 400 (validationErrors isEmail (sanitizeBody normalizeEmail b))
        (some (sanitizeBody normalizeEmail b)) none cfg.siteKey ∧
    (validationErrors isEmail (sanitizeBody normalizeEmail b)).lookup
        "first_name" =
      some (if escapeStr (jsTrim b.first_name) = ""
            then "First name is required"
            else "First name must be at least 3 characters long") := by
  have h3 : (sanitizeBody normalizeEmail b).first_name.length < 3 := h
  have hA : (if (sanitizeBody normalizeEmail b).first_name = "" then
              [("first_name", "First name is required")]
            else if (sanitizeBody normalizeEmail b).first_name.length < 3 then
              [("first_name", "First name must be at least 3 characters long")]
            else []) =
      [("first_name",
        if (sanitizeBody normalizeEmail b).first_name = ""
        then "First name is required"
        else "First name must be at least 3 characters long")] := by
    by_cases he : (sanitizeBody normalizeEmail b).first_name = "" <;>
      simp [he, h3]
  have hv : validationErrors isEmail (sanitizeBody normalizeEmail b) =
      ("first_name",
        if (sanitizeBody normalizeEmail b).first_name = ""
        then "First name is required"
        else "First name must be at least 3 characters long") ::
      ((if (sanitizeBody normalizeEmail b).last_name = "" then
          [("last_name", "Last name is required")]
        else if (sanitizeBody normalizeEmail b).last_name.length < 2 then
          [("last_name", "Last name must be at least 2 characters long")]
        else [])
       ++ (if isEmail (sanitizeBody normalizeEmail b).email then []
           else [("email", "Email is not valid")])
       ++ (if (sanitizeBody normalizeEmail b).message = "" then
             [("message", "Message is required")]
           else [])) := by
    rw [validationErrors, hA]; simp
  have hne : validationErrors isEmail (sanitizeBody normalizeEmail b) ≠ []
    := by rw [hv]; simp
  constructor
  · simp [contactUsPost, hne]
  · rw [hv]
    simp only [List.lookup]
    rfl

/-- Witness for the amended C9 at a concrete input. -/
theorem short_first_name_always_rejected_witness :
    (escapeStr (jsTrim "Jo")).length < 3 ∧
    ((contactUsPost cfg0 anyEmail id extAllOk joBody).1 =
      .render 400 (validationErrors anyEmail (sanitizeBody id joBody))
        (some (sanitizeBody id joBody)) none "site-key" ∧
    (validationErrors anyEmail (sanitizeBody id joBody)).lookup "first_name"
      = some (if escapeStr (jsTrim ("Jo" : String)) = ""
              then "First name is required"
              else "First name must be at least 3 characters long")) :=
  ⟨by decide,
   short_first_name_always_rejected cfg0 anyEmail id extAllOk joBody
     (by decide)⟩

/-- C2 (code bug): on a submission that passes validation and carries a
token, with the verification endpoint reachable, the handler performs TWO
outbound calls to the verify endpoint — the unguarded fetch on line 108 of
`app.js` and its duplicate inside the `try` on line 115 — not the single
call the specification requires. -/
theorem verification_called_twice :
    (contactUsPost cfg0 anyEmail id extAllOk goodBody).2.verifyCalls = 2 := by
  decide

/-- C3 (code bug): when the verification endpoint is down (every verify
fetch rejects), the first, unguarded fetch on line 108 throws outside any
`try`/`catch`, so the rejection escapes the handler: no 500 contact view
is rendered (the claimed outcome), though the mail dispatcher is indeed
never reached. -/
theorem verifier_down_crashes_handler :
    contactUsPost cfg0 anyEmail id
        { f1 := .error (), f2 := .error (), jsonP := .error ()
          mail := .ok (), chimp := .ok true } goodBody
      = (.crash, ⟨1, false, false⟩) := by decide

/-- Every atomic continuation preserves the outcome its own request is
bound to produce, whatever the shared global currently holds: the one
read of the global (in the gate after `data = await response.json()`)
happens in the same synchronous continuation as the write. -/
theorem stepReq_phaseOutcome (cfg : Config) (isEmail : String → Bool)
    (normalizeEmail : String → String) (c : RCtx) (p : RPhase)
    (g : Option VerifyData) :
    phaseOutcome cfg isEmail normalizeEmail c
        (stepReq cfg isEmail normalizeEmail c p g).1 =
      phaseOutcome cfg isEmail normalizeEmail c p := by
  obtain ⟨b, f1, f2, j, m, ch⟩ := c
  cases p with
  | start =>
    simp only [stepReq]
    split
    · next h =>
      simp [phaseOutcome, seqOutcome, contactUsPost, h]
    · next h =>
      split
      · next h2 =>
        have h2' : truthy b.token = false := by simpa using h2
        simp [phaseOutcome, seqOutcome, contactUsPost, h, h2']
      · next h2 =>
        simp only [phaseOutcome, seqOutcome, contactUsPost]
        rw [if_neg h, if_neg h2]
        cases f1 with
        | error u => simp [outcomeFromF1]
        | ok u =>
          cases f2 with
          | error u2 => simp [outcomeFromF1, outcomeFromF2]
          | ok u2 =>
            cases j with
            | error e => simp [outcomeFromF1, outcomeFromF2, outcomeFromJson]
            | ok d =>
              by_cases hc : captchaRejected d = true
              · simp [outcomeFromF1, outcomeFromF2, outcomeFromJson, hc]
              · cases m with
                | error u3 =>
                  simp [outcomeFromF1, outcomeFromF2, outcomeFromJson,
                    outcomeFromMail, hc]
                | ok u3 =>
                  by_cases hn : truthy b.newsletter = true
                  · simp [outcomeFromF1, outcomeFromF2, outcomeFromJson,
                      outcomeFromMail, hc, hn]
                  · simp [outcomeFromF1, outcomeFromF2, outcomeFromJson,
                      outcomeFromMail, hc, hn]
  | awaitF1 =>
    cases f1 <;> simp [stepReq, phaseOutcome, outcomeFromF1]
  | awaitF2 =>
    cases f2 <;> simp [stepReq, phaseOutcome, outcomeFromF2]
  | awaitJson =>
    cases j with
    | error e => simp [stepReq, phaseOutcome, outcomeFromJson]
    | ok v =>
      by_cases hc : captchaRejected v = true
      · simp [stepReq, phaseOutcome, outcomeFromJson, hc]
      · simp [stepReq, phaseOutcome, outcomeFromJson, outcomeFromMail, hc]
  | awaitMail =>
    cases m with
    | error e => simp [stepReq, phaseOutcome, outcomeFromMail]
    | ok u =>
      by_cases hn : truthy b.newsletter = true
      · simp [stepReq, phaseOutcome, outcomeFromMail, hn]
      · simp [stepReq, phaseOutcome, outcomeFromMail, hn]
  | awaitChimp => rfl
  | done o => rfl

/-- Along any interleaving, request A's bound outcome never changes. -/
theorem runSys_fst_phaseOutcome (cfg : Config) (isEmail : String → Bool)
    (normalizeEmail : String → String) (cA cB : RCtx)
    (sched : List Bool) :
    ∀ pA pB g,
      phaseOutcome cfg isEmail normalizeEmail cA
          (runSys cfg isEmail normalizeEmail cA cB sched (pA, pB, g)).1 =
        phaseOutcome cfg isEmail normalizeEmail cA pA := by
  induction sched with
  | nil => intro pA pB g; rfl
  | cons pick rest ih =>
    intro pA pB g
    cases pick with
    | true =>
      simp only [runSys]
      rw [ih]
      exact stepReq_phaseOutcome cfg isEmail normalizeEmail cA pA g
    | false =>
      simp only [runSys]
      exact ih pA _ _

/-- Along any interleaving, request B's bound outcome never changes. -/
theorem runSys_snd_phaseOutcome (cfg : Config) (isEmail : String → Bool)
    (normalizeEmail : String → String) (cA cB : RCtx)
    (sched : List Bool) :
    ∀ pA pB g,
      phaseOutcome cfg isEmail normalizeEmail cB
          (runSys cfg isEmail normalizeEmail cA cB sched (pA, pB, g)).2.1 =
        phaseOutcome cfg isEmail normalizeEmail cB pB := by
  induction sched with
  | nil => intro pA pB g; rfl
  | cons pick rest ih =>
    intro pA pB g
    cases pick with
    | true =>
      simp only [runSys]
      exact ih _ pB _
    | false =>
      simp only [runSys]
      rw [ih]
      exact stepReq_phaseOutcome cfg isEmail normalizeEmail cB pB g

/-- C1: two concurrently processed POST /contact-us requests do not
influence each other.  For every interleaving `sched` of the two
handlers' continuations over the shared undeclared global `data`, each
request that reaches a terminal outcome reaches exactly the outcome the
sequential handler `contactUsPost` computes from that request's own body
and its own external responses — never from values the other request
wrote. -/
theorem concurrent_requests_independent (cfg : Config)
    (isEmail : String → Bool) (normalizeEmail : String → String)
    (cA cB : RCtx) (sched : List Bool) (g0 : Option VerifyData)
    (oA oB : Outcome)
    (hA : (runSys cfg isEmail normalizeEmail cA cB sched
            (.start, .start, g0)).1 = .done oA)
    (hB : (runSys cfg isEmail normalizeEmail cA cB sched
            (.start, .start, g0)).2.1 = .done oB) :
    oA = seqOutcome cfg isEmail normalizeEmail cA ∧
    oB = seqOutcome cfg isEmail normalizeEmail cB := by
  constructor
  · have h := runSys_fst_phaseOutcome cfg isEmail normalizeEmail cA cB
      sched .start .start g0
    rw [hA] at h
    exact h
  · have h := runSys_snd_phaseOutcome cfg isEmail normalizeEmail cA cB
      sched .start .start g0
    rw [hB] at h
    exact h

/-- Witness for C1: a concrete interleaving in which B overwrites the
global `data` right after A's gate ran; A still ends in its own 200
success and B in its own 403 rejection. -/
theorem concurrent_requests_independent_witness :
    ((runSys cfg0 anyEmail id ctxA ctxB schedAB (.start, .start, none)).1 =
      .done (.render 200 [] none (some "Form submitted successfully!")
        "site-key")) ∧
    ((runSys cfg0 anyEmail id ctxA ctxB schedAB (.start, .start, none)).2.1 =
      .done (.render 403 [("captcha", "reCAPTCHA failed. Please try again.")]
        (some (sanitizeBody id ctxB.body)) none "site-key")) ∧
    (Outcome.render 200 [] none (some "Form submitted successfully!")
        "site-key" = seqOutcome cfg0 anyEmail id ctxA ∧
     Outcome.render 403 [("captcha", "reCAPTCHA failed. Please try again.")]
        (some (sanitizeBody id ctxB.body)) none "site-key" =
       seqOutcome cfg0 anyEmail id ctxB) :=
  ⟨by decide, by decide,
   concurrent_requests_independent cfg0 anyEmail id ctxA ctxB schedAB none
     _ _ (by decide) (by decide)⟩
